import Mathlib

/-!
Verification of `src/performance.py` (MGTS-bench): a shallow embedding of the
benchmark harness — the Metrics aggregation of `_run_search_test`, the
per-request classification of `_perform_search`, `index_documents`, the Solr
schema inference (`infer_field_definition`, the field-definition merge of
`_gather_field_definitions_from_doc`, `add_field`), `cleanup`, and the
orchestrator (`MISPPerfTester.run_multiple_search_tests`, `MISPPerfTester.cleanup`).

Python floats are modelled as `ℚ`; a Python call that may raise is modelled as
an `Except Unit` value (the exception payload is irrelevant here), and a Python
computation that could raise (`statistics.mean` on an empty list, division by
zero) is modelled as an `Option`-returning function, so that "no exception is
raised" is the statement that the embedding returns `some`/`Except.ok`.
-/

/-- The metrics record returned by every `_run_search_test`
(src/performance.py:107-114, 171-178, 408-415). Counts are `ℕ`, float metrics
are `ℚ`. -/
structure Metrics where
  total_requests : ℕ
  successful : ℕ
  errors : ℕ
  avg_latency : ℚ
  median_latency : ℚ
  throughput : ℚ
  deriving Repr, DecidableEq

/-- Python `statistics.mean`: sum divided by length; raises `StatisticsError`
(here: `none`) on an empty list. -/
def meanQ (xs : List ℚ) : Option ℚ :=
  if xs.length = 0 then none else some (xs.sum / (xs.length : ℚ))

/-- Python `statistics.median`: sort, take the middle element for odd length,
the average of the two middle elements for even length; raises (here: `none`)
on an empty list. The `getD 0` defaults are never reached for a nonempty list. -/
def medianQ (xs : List ℚ) : Option ℚ :=
  if xs.length = 0 then none
  else
    let s := xs.mergeSort (fun a b => decide (a ≤ b))
    let n := xs.length
    if n % 2 = 1 then some (s.getD (n / 2) 0)
    else some ((s.getD (n / 2 - 1) 0 + s.getD (n / 2) 0) / 2)

/-- Python division, which raises `ZeroDivisionError` (here: `none`) when the
divisor is zero. -/
def safeDivQ (a b : ℚ) : Option ℚ :=
  if b = 0 then none else some (a / b)

/-- The classification loop of `_run_search_test`
(src/performance.py:89-98): each completed future's result is either a latency
(appended, in completion order) or `None` (counted as one error). The dead
inner `latency is not None` check of the source cannot fire and is omitted. -/
def classify : List (Option ℚ) → List ℚ × ℕ
  | [] => ([], 0)
  | some l :: rest => (l :: (classify rest).1, (classify rest).2)
  | none :: rest => ((classify rest).1, (classify rest).2 + 1)

/-- The aggregation tail of `_run_search_test` (src/performance.py:101-114):
`total_requests = len(latencies) + errors`, the mean/median guarded by
`if latencies`, and `throughput = total_requests / total_time` guarded by
`if total_time > 0`. The result is `none` exactly when one of the guarded
Python expressions would have raised. -/
def aggregate (latencies : List ℚ) (errors : ℕ) (total_time : ℚ) : Option Metrics :=
  let total_requests := latencies.length + errors
  let avg := if latencies.isEmpty then some 0 else meanQ latencies
  let med := if latencies.isEmpty then some 0 else medianQ latencies
  let thr := if 0 < total_time then safeDivQ (total_requests : ℚ) total_time else some 0
  match avg, med, thr with
  | some a, some md, some th =>
      some { total_requests := total_requests, successful := latencies.length,
             errors := errors, avg_latency := a, median_latency := md, throughput := th }
  | _, _, _ => none

/-- `OpenSearchEngine._perform_search` (src/performance.py:71-78): the client
call's outcome is timed, and any exception is caught and turned into `None`. -/
def OpenSearchEngine.perform_search (callResult : Except Unit ℚ) : Option ℚ :=
  match callResult with
  | .ok elapsed => some elapsed
  | .error _ => none

/-- `OpenSearchEngine._run_search_test` (src/performance.py:80-114), as a
function of the per-request client-call outcomes (one entry per submitted
request, in completion order) and the measured wall-clock time. Because
`_perform_search` catches every exception, `future.result()` never raises and
the aggregation always runs. -/
def OpenSearchEngine.run_search_test (callResults : List (Except Unit ℚ))
    (total_time : ℚ) : Option Metrics :=
  let p := classify (callResults.map OpenSearchEngine.perform_search)
  aggregate p.1 p.2 total_time

/-- `MeilisearchEngine._perform_search` (src/performance.py:138-142): the
client call is timed with no `try`/`except`; an exception propagates. -/
def MeilisearchEngine.perform_search (callResult : Except Unit ℚ) : Except Unit ℚ :=
  callResult

/-- The `future.result()` loop of the Meilisearch/Solr `_run_search_test`
variants: each completed future's result is collected; the first future whose
operation raised re-raises inside the loop, unwinding the whole run. -/
def collectResults : List (Except Unit ℚ) → Except Unit (List ℚ)
  | [] => .ok []
  | r :: rest =>
    match r with
    | .ok l =>
      match collectResults rest with
      | .ok ls => .ok (l :: ls)
      | .error e => .error e
    | .error e => .error e

/-- `MeilisearchEngine._run_search_test` (src/performance.py:144-178): since
`_perform_search` has no exception handling, a raising request propagates
through `future.result()` and no Metrics is produced; otherwise every result
is a latency (never `None`), and the aggregation of src/performance.py:164-178
runs. -/
def MeilisearchEngine.run_search_test (callResults : List (Except Unit ℚ))
    (total_time : ℚ) : Except Unit (Option Metrics) :=
  match collectResults (callResults.map MeilisearchEngine.perform_search) with
  | .error e => .error e
  | .ok lats =>
    let p := classify (lats.map some)
    .ok (aggregate p.1 p.2 total_time)

/-- `SolrEngine._perform_search` (src/performance.py:373-380): the
`solr.search` call is timed with no `try`/`except`; an exception propagates. -/
def SolrEngine.perform_search (callResult : Except Unit ℚ) : Except Unit ℚ :=
  callResult

/-- `SolrEngine._run_search_test` (src/performance.py:382-415): structurally
identical to the Meilisearch variant — no per-request exception handling, so a
raising request aborts the run. -/
def SolrEngine.run_search_test (callResults : List (Except Unit ℚ))
    (total_time : ℚ) : Except Unit (Option Metrics) :=
  match collectResults (callResults.map SolrEngine.perform_search) with
  | .error e => .error e
  | .ok lats =>
    let p := classify (lats.map some)
    .ok (aggregate p.1 p.2 total_time)

/-- `OpenSearchEngine.index_documents` (src/performance.py:52-65): the
`indices.create` call runs unguarded, then each document's `client.index` call
is wrapped in `try ... except Exception: pass`, so a per-document failure is
swallowed; the wall-clock elapsed time is returned. The function is modelled
over the outcome of the create call and the outcome of each per-document call. -/
def OpenSearchEngine.index_documents (createResult : Except Unit Unit)
    (docResults : List (Except Unit Unit)) (elapsed : ℚ) : Except Unit ℚ := do
  let _ ← createResult
  docResults.forM fun r =>
    match r with
    | .ok _ => Except.ok ()
    | .error _ => Except.ok ()
  pure elapsed

/-- `MeilisearchEngine.index_documents` (src/performance.py:126-132): after the
`create_index` call, each document's `update_documents([doc])` call runs with
no `try`/`except`, so the first per-document failure propagates and aborts the
batch. -/
def MeilisearchEngine.index_documents (createResult : Except Unit Unit)
    (docResults : List (Except Unit Unit)) (elapsed : ℚ) : Except Unit ℚ := do
  let _ ← createResult
  docResults.forM fun r => r
  pure elapsed

/-- `SolrEngine.index_documents` (src/performance.py:362-367): a `ping` and a
single `solr.add(docs)` call for the whole batch, both unguarded; an error in
either propagates. -/
def SolrEngine.index_documents (pingResult : Except Unit Unit)
    (addResult : Except Unit Unit) (elapsed : ℚ) : Except Unit ℚ := do
  let _ ← pingResult
  let _ ← addResult
  pure elapsed

/-- A Solr field definition as built by the schema inferencer: a type name and
a multiValued flag (src/performance.py:237-268). -/
structure FieldDefinition where
  type : String
  multiValued : Bool
  deriving Repr, DecidableEq

/-- A JSON-typed Python value as handled by the schema inferencer. `dict` is an
insertion-ordered association list, like a Python dict. -/
inductive PyVal where
  | int (n : ℤ)
  | float (q : ℚ)
  | bool (b : Bool)
  | str (s : String)
  | none
  | list (xs : List PyVal)
  | dict (entries : List (String × PyVal))

/-- Python `isinstance(v, int)`. Note `bool` is a subclass of `int` in Python,
so a boolean value satisfies this check. -/
def isinstanceInt : PyVal → Bool
  | .int _ => true
  | .bool _ => true
  | _ => false

/-- Python `isinstance(v, float)`. -/
def isinstanceFloat : PyVal → Bool
  | .float _ => true
  | _ => false

/-- Python `isinstance(v, bool)`. -/
def isinstanceBool : PyVal → Bool
  | .bool _ => true
  | _ => false

/-- Python `isinstance(v, dict)`. -/
def isinstanceDict : PyVal → Bool
  | .dict _ => true
  | _ => false

/-- `SolrEngine.infer_field_definition` (src/performance.py:237-268),
reproducing the source's `isinstance` chain in order: for a list, the type is
inferred from the first element; the `int` check precedes the `bool` check, so
(since `bool` subclasses `int` in Python) a boolean reaches the `int` branch. -/
def SolrEngine.infer_field_definition : PyVal → FieldDefinition
  | .list [] => { type := "strings", multiValued := true }
  | .list (first_elem :: _) =>
      if isinstanceInt first_elem then { type := "pints", multiValued := true }
      else if isinstanceFloat first_elem then { type := "pfloats", multiValued := true }
      else if isinstanceBool first_elem then { type := "string", multiValued := true }
      else if isinstanceDict first_elem then { type := "text_general", multiValued := false }
      else { type := "strings", multiValued := true }
  | value =>
      if isinstanceInt value then { type := "pint", multiValued := false }
      else if isinstanceFloat value then { type := "pfloat", multiValued := false }
      else if isinstanceBool value then { type := "boolean", multiValued := false }
      else if isinstanceDict value then { type := "text_general", multiValued := false }
      else { type := "string", multiValued := false }

/-- The merge rule of `_gather_field_definitions_from_doc`
(src/performance.py:292-298): the multiValued flags are OR-combined, and when
the two types differ the type degrades to `strings`/`string` according to the
merged multiValued flag. -/
def mergeFieldDef (existing inferred : FieldDefinition) : FieldDefinition :=
  let merged_multi := existing.multiValued || inferred.multiValued
  let merged_type :=
    if existing.type ≠ inferred.type then
      (if merged_multi then "strings" else "string")
    else existing.type
  { type := merged_type, multiValued := merged_multi }

/-- Replaces the value stored at `key` in an insertion-ordered association
list, or appends the binding — the behaviour of `field_defs[key] = v` on a
Python dict. -/
def assocUpdate : List (String × FieldDefinition) → String → FieldDefinition →
    List (String × FieldDefinition)
  | [], k, v => [(k, v)]
  | (k', v') :: rest, k, v =>
      if k' = k then (k', v) :: rest else (k', v') :: assocUpdate rest k v

/-- The `else` branch of `_gather_field_definitions_from_doc`
(src/performance.py:288-300): infer a definition for the value and either merge
it with the existing definition for the key or record it fresh. -/
def recordFieldDef (field_defs : List (String × FieldDefinition)) (key : String)
    (value : PyVal) : List (String × FieldDefinition) :=
  let inferred := SolrEngine.infer_field_definition value
  match field_defs.lookup key with
  | some existing => assocUpdate field_defs key (mergeFieldDef existing inferred)
  | Option.none => field_defs ++ [(key, inferred)]

mutual

/-- `SolrEngine._gather_field_definitions_from_doc` (src/performance.py:270-300):
iterates the document's items in order, threading the accumulated definitions. -/
def gatherDoc (flatten : Bool) (entries : List (String × PyVal))
    (field_defs : List (String × FieldDefinition)) : List (String × FieldDefinition) :=
  match entries with
  | [] => field_defs
  | (key, value) :: rest => gatherDoc flatten rest (gatherEntry flatten key value field_defs)
termination_by sizeOf entries

/-- One `(key, value)` item of the loop body (src/performance.py:277-300): with
`flatten`, a dict value is recursed into and a nonempty list whose first
element is a dict is iterated; otherwise the value's definition is recorded. -/
def gatherEntry (flatten : Bool) (key : String) (value : PyVal)
    (field_defs : List (String × FieldDefinition)) : List (String × FieldDefinition) :=
  match flatten, value with
  | true, .dict sub => gatherDoc true sub field_defs
  | true, .list (.dict sub0 :: items) => gatherItems (.dict sub0 :: items) field_defs
  | _, v => recordFieldDef field_defs key v
termination_by sizeOf value

/-- The `for item in value` loop (src/performance.py:286-287). The source
assumes every item of a list-of-dicts is a dict (`item.items()` would raise
`AttributeError` otherwise); a non-dict item is outside the modelled inputs and
is skipped. -/
def gatherItems (items : List PyVal) (field_defs : List (String × FieldDefinition)) :
    List (String × FieldDefinition) :=
  match items with
  | [] => field_defs
  | .dict sub :: rest => gatherItems rest (gatherDoc true sub field_defs)
  | _ :: rest => gatherItems rest field_defs
termination_by sizeOf items

end

/-- `SolrEngine.gather_field_definitions` (src/performance.py:302-309): scans
the documents in order, starting from an empty definition table. -/
def SolrEngine.gather_field_definitions (docs : List (List (String × PyVal)))
    (flatten : Bool) : List (String × FieldDefinition) :=
  docs.foldl (fun field_defs doc => gatherDoc flatten doc field_defs) []

/-- The `add-field` payload posted to the Solr Schema API by
`SolrEngine.add_field` (src/performance.py:206-214). -/
structure SolrAddFieldPayload where
  name : String
  type : String
  stored : Bool
  indexed : Bool
  multiValued : Bool
  deriving Repr, DecidableEq

/-- The externally visible effects of one `SolrEngine.add_field` call: the
payload sent to the remote schema endpoint, and the entry written into the
local `created_fields` cache (`none` when the response was not a 200). -/
structure AddFieldOutcome where
  payload : SolrAddFieldPayload
  cached : Option FieldDefinition
  deriving Repr, DecidableEq

/-- `SolrEngine.add_field` (src/performance.py:195-227): the field named
`revoked` has its `field_type` overwritten to `booleans` first; the remote
payload always declares `type: "text_en"` regardless of `field_type`; on a 200
response the local cache records `field_type` (after the `revoked` overwrite)
and `multiValued`, and on any other status nothing is cached. -/
def SolrEngine.add_field (field_name field_type : String)
    (stored indexed multiValued : Bool) (status_code : ℕ) : AddFieldOutcome :=
  let ft := if field_name = "revoked" then "booleans" else field_type
  { payload := { name := field_name, type := "text_en", stored := stored,
                 indexed := indexed, multiValued := multiValued },
    cached := if status_code ≠ 200 then Option.none
              else some { type := ft, multiValued := multiValued } }

/-- `OpenSearchEngine.cleanup` (src/performance.py:116-117): a bare
`client.indices.delete(index="misp-galaxies")` with no `try`/`except` and no
`ignore` list. The opensearch-py client raises `NotFoundError` when the target
index does not exist (HTTP 404), so the call's outcome is a function of whether
the benchmark index still exists. -/
def OpenSearchEngine.cleanup (index_exists : Bool) : Except Unit Unit :=
  if index_exists then Except.ok () else Except.error ()

/-- `MeilisearchEngine.cleanup` (src/performance.py:180-181):
`client.delete_index` enqueues a deletion task over HTTP (202 Accepted); a
missing index fails the task asynchronously, not the call, so the call
succeeds whether or not the index still exists. -/
def MeilisearchEngine.cleanup (_index_exists : Bool) : Except Unit Unit :=
  Except.ok ()

/-- `SolrEngine.cleanup` (src/performance.py:417-418): a delete-by-query
`solr.delete(q="*:*")`, which succeeds (matching zero documents) whether or not
any benchmark data remains in the core. -/
def SolrEngine.cleanup (_core_has_docs : Bool) : Except Unit Unit :=
  Except.ok ()

/-- `MISPPerfTester.cleanup` (src/performance.py:540-542): a plain
`for engine in self.engines: engine.cleanup()` with no exception handling,
modelled over the per-engine cleanup outcomes in engine order. The first
raising cleanup propagates out of the loop. -/
def MISPPerfTester.cleanup : List (Except Unit Unit) → Except Unit Unit
  | [] => Except.ok ()
  | r :: rest =>
    match r with
    | .ok _ => MISPPerfTester.cleanup rest
    | .error e => .error e

/-- How many engines' `cleanup` calls are actually attempted by
`MISPPerfTester.cleanup` before the loop either finishes or unwinds: every
engine up to and including the first whose cleanup raises. -/
def cleanupAttempts : List (Except Unit Unit) → ℕ
  | [] => 0
  | .ok _ :: rest => 1 + cleanupAttempts rest
  | .error _ :: _ => 1

/-- The query list hard-coded inside `MISPPerfTester.run_multiple_search_tests`
(src/performance.py:489). -/
def mispQueries : List String :=
  ["APT28", "Android", "phishing", "malware", "fraud",
   "e878d24d-f122-48c4-930c-f6b6d5f0ee28"]

/-- The names of the three engines configured in `MISPPerfTester.__init__`
(src/performance.py:432). -/
def engineNames : List String := ["OpenSearch", "Meilisearch", "Solr"]

/-- One engine's row of the sweep matrix: the four per-query metric series
collected by `run_multiple_search_tests` (src/performance.py:490-505).
Latencies are stored multiplied by 1000 (seconds to milliseconds). -/
structure MetricSeries where
  avg_latency : List ℚ
  median_latency : List ℚ
  throughput : List ℚ
  errors : List ℕ
  deriving Repr, DecidableEq

/-- Appends one search result's four metric values to the named engine's row,
as the loop body of src/performance.py:498-505 does. -/
def appendMetrics : List (String × MetricSeries) → String → Metrics →
    List (String × MetricSeries)
  | [], _, _ => []
  | (n', s) :: rest, n, m =>
    if n' = n then
      (n', { avg_latency := s.avg_latency ++ [m.avg_latency * 1000],
             median_latency := s.median_latency ++ [m.median_latency * 1000],
             throughput := s.throughput ++ [m.throughput],
             errors := s.errors ++ [m.errors] }) :: rest
    else (n', s) :: appendMetrics rest n m

/-- `MISPPerfTester.run_multiple_search_tests` (src/performance.py:487-509):
the query list is the hard-coded `mispQueries` (the method takes no query
argument); for each query, in order, each engine's `search` result is appended
to that engine's four metric series. The per-(engine, query) search outcome is
abstracted as a function from engine name and query to a Metrics record. -/
def MISPPerfTester.run_multiple_search_tests (search : String → String → Metrics) :
    List String × List (String × MetricSeries) :=
  let start := engineNames.map fun n =>
    (n, { avg_latency := [], median_latency := [], throughput := [], errors := [] })
  let final := mispQueries.foldl
    (fun acc q => engineNames.foldl (fun acc2 n => appendMetrics acc2 n (search n q)) acc)
    start
  (mispQueries, final)

/-! ## Supporting lemmas -/

lemma classify_length (rs : List (Option ℚ)) :
    (classify rs).1.length + (classify rs).2 = rs.length := by
  induction rs with
  | nil => rfl
  | cons r rest ih => cases r <;> simp [classify] <;> omega

lemma classify_replicate_none (n : ℕ) :
    classify (List.replicate n Option.none) = ([], n) := by
  induction n with
  | zero => rfl
  | succ k ih => simp [List.replicate_succ, classify, ih]

lemma medianQ_exists (l : List ℚ) (h : ¬ l.length = 0) : ∃ q, medianQ l = some q := by
  by_cases hodd : l.length % 2 = 1
  · simp only [medianQ, if_neg h, if_pos hodd]
    exact ⟨_, rfl⟩
  · simp only [medianQ, if_neg h, if_neg hodd]
    exact ⟨_, rfl⟩

lemma aggregate_eq (l : List ℚ) (e : ℕ) (t : ℚ) (a md : ℚ)
    (ha : (if l.isEmpty then some 0 else meanQ l) = some a)
    (hmd : (if l.isEmpty then some 0 else medianQ l) = some md) :
    aggregate l e t = some { total_requests := l.length + e,
                             successful := l.length,
                             errors := e, avg_latency := a, median_latency := md,
                             throughput :=
                               (if 0 < t then ((l.length : ℚ) + (e : ℚ)) / t else 0) } := by
  unfold aggregate
  rw [ha, hmd]
  by_cases ht : (0:ℚ) < t
  · simp [safeDivQ, ht, ht.ne']
  · simp [ht]

lemma aggregate_counts (l : List ℚ) (e : ℕ) (t : ℚ) :
    ∃ m, aggregate l e t = some m ∧ m.total_requests = l.length + e ∧
      m.successful = l.length ∧ m.errors = e := by
  rcases l with _ | ⟨x, xs⟩
  · exact ⟨_, aggregate_eq [] e t 0 0 (by simp) (by simp), rfl, rfl, rfl⟩
  · obtain ⟨md, hmd⟩ := medianQ_exists (x :: xs) (by simp)
    exact ⟨_, aggregate_eq (x :: xs) e t ((x :: xs).sum / ((x :: xs).length : ℚ)) md
      (by simp [meanQ]) (by simp [hmd]), rfl, rfl, rfl⟩

lemma collectResults_ok_append_error (qs : List ℚ) (e : Unit)
    (rest : List (Except Unit ℚ)) :
    collectResults (qs.map Except.ok ++ Except.error e :: rest) = Except.error e := by
  induction qs with
  | nil => rfl
  | cons q qs ih => simp [collectResults, ih]

lemma map_perform_search_meili (l : List (Except Unit ℚ)) :
    l.map MeilisearchEngine.perform_search = l := by
  induction l with
  | nil => rfl
  | cons a l ih => simp [MeilisearchEngine.perform_search, ih]

lemma map_perform_search_solr (l : List (Except Unit ℚ)) :
    l.map SolrEngine.perform_search = l := by
  induction l with
  | nil => rfl
  | cons a l ih => simp [SolrEngine.perform_search, ih]

lemma osIndex_docs_ok (docs : List (Except Unit Unit)) (t : ℚ) :
    OpenSearchEngine.index_documents (Except.ok ()) docs t = Except.ok t := by
  induction docs with
  | nil => rfl
  | cons d rest ih => cases d with
    | ok u => exact ih
    | error e => exact ih

lemma meiliIndex_all_ok (okdocs : List Unit) (t : ℚ) :
    MeilisearchEngine.index_documents (Except.ok ())
      (okdocs.map fun _ => Except.ok ()) t = Except.ok t := by
  induction okdocs with
  | nil => rfl
  | cons u us ih => exact ih

lemma meiliIndex_first_error (okdocs : List Unit) (e : Unit)
    (post : List (Except Unit Unit)) (t : ℚ) :
    MeilisearchEngine.index_documents (Except.ok ())
      ((okdocs.map fun _ => Except.ok ()) ++ Except.error e :: post) t =
      Except.error e := by
  induction okdocs with
  | nil => rfl
  | cons u us ih => exact ih

lemma cleanupAttempts_prefix_error (pre : List Unit) (e : Unit)
    (post : List (Except Unit Unit)) :
    cleanupAttempts ((pre.map fun _ => Except.ok ()) ++ Except.error e :: post) =
      pre.length + 1 := by
  induction pre with
  | nil => rfl
  | cons u us ih =>
    show 1 + cleanupAttempts ((us.map fun _ => Except.ok ()) ++ Except.error e :: post)
      = (u :: us).length + 1
    rw [ih, List.length_cons]
    omega

lemma misp_cleanup_prefix_error (pre : List Unit) (e : Unit)
    (post : List (Except Unit Unit)) :
    MISPPerfTester.cleanup ((pre.map fun _ => Except.ok ()) ++ Except.error e :: post) =
      Except.error e := by
  induction pre with
  | nil => rfl
  | cons u us ih => exact ih

lemma misp_cleanup_all_ok (pre : List Unit) :
    MISPPerfTester.cleanup (pre.map fun _ => Except.ok ()) = Except.ok () := by
  induction pre with
  | nil => rfl
  | cons u us ih => exact ih

lemma infer_never_boolean_branch (v : PyVal) :
    SolrEngine.infer_field_definition v ≠ { type := "boolean", multiValued := false } ∧
    SolrEngine.infer_field_definition v ≠ { type := "string", multiValued := true } := by
  cases v with
  | list xs =>
    cases xs with
    | nil => simp [SolrEngine.infer_field_definition]
    | cons h rest =>
      cases h <;>
        simp [SolrEngine.infer_field_definition, isinstanceInt, isinstanceFloat,
              isinstanceBool, isinstanceDict]
  | _ =>
    simp [SolrEngine.infer_field_definition, isinstanceInt, isinstanceFloat,
          isinstanceBool, isinstanceDict]

/-! ## Claims -/

/-- C1 (counterexample). Read over "any backend variant" the claim fails: in
the Meilisearch (and Solr) load run a single failing request re-raises out of
`future.result()` and aborts the whole run, so no Metrics is returned and the
sibling requests' accounting is lost. Here a two-request Meilisearch run whose
second request raises returns the exception instead of a Metrics record. -/
theorem c1_counterexample :
    MeilisearchEngine.run_search_test [Except.ok 1, Except.error ()] 1 =
      Except.error () := rfl

/-- C1 (amended): for the OpenSearch load run — whose `_perform_search`
catches every exception — a Metrics is always returned and satisfies
`total_requests = successful + errors = num_requests` (the length of the
per-request outcome list), whatever the outcomes; for the Meilisearch load run,
an all-ok prefix followed by one raising request makes the whole run abort with
that exception instead of returning a Metrics. -/
theorem c1_amended (rs : List (Except Unit ℚ)) (qs : List ℚ) (e : Unit)
    (rest : List (Except Unit ℚ)) (t : ℚ) :
    (∃ m, OpenSearchEngine.run_search_test rs t = some m ∧
       m.total_requests = m.successful + m.errors ∧ m.total_requests = rs.length) ∧
    MeilisearchEngine.run_search_test (qs.map Except.ok ++ Except.error e :: rest) t =
      Except.error e := by
  constructor
  · obtain ⟨m, hm, h1, h2, h3⟩ := aggregate_counts
      (classify (rs.map OpenSearchEngine.perform_search)).1
      (classify (rs.map OpenSearchEngine.perform_search)).2 t
    refine ⟨m, hm, ?_, ?_⟩
    · rw [h1, h2, h3]
    · rw [h1]
      have hc := classify_length (rs.map OpenSearchEngine.perform_search)
      simpa using hc
  · unfold MeilisearchEngine.run_search_test
    rw [map_perform_search_meili, collectResults_ok_append_error]

/-- C2 (counterexample). The claim fails for the Meilisearch backend: its
`index_documents` calls `update_documents([doc])` per document with no
`try`/`except`, so a per-document failure propagates and aborts the batch
instead of a duration being returned. Here the second document's call raises. -/
theorem c2_counterexample :
    MeilisearchEngine.index_documents (Except.ok ())
      [Except.ok (), Except.error ()] 1 = Except.error () := rfl

/-- C2 (amended): only the OpenSearch `index_documents` swallows per-document
failures and returns the elapsed duration for every outcome sequence; the
Meilisearch variant returns the duration only when every per-document call
succeeds and otherwise propagates the first per-document error; the Solr
variant indexes the whole batch in one `solr.add` call whose failure likewise
propagates. -/
theorem c2_amended (docs : List (Except Unit Unit)) (okdocs : List Unit) (e : Unit)
    (post : List (Except Unit Unit)) (t : ℚ) :
    OpenSearchEngine.index_documents (Except.ok ()) docs t = Except.ok t ∧
    MeilisearchEngine.index_documents (Except.ok ())
      (okdocs.map fun _ => Except.ok ()) t = Except.ok t ∧
    MeilisearchEngine.index_documents (Except.ok ())
      ((okdocs.map fun _ => Except.ok ()) ++ Except.error e :: post) t =
      Except.error e ∧
    SolrEngine.index_documents (Except.ok ()) (Except.error e) t = Except.error e :=
  ⟨osIndex_docs_ok docs t, meiliIndex_all_ok okdocs t,
   meiliIndex_first_error okdocs e post t, rfl⟩

/-- C3 (confirmed): the FieldDefinition merge of
`_gather_field_definitions_from_doc` is commutative and idempotent; the merged
multiValued flag is the OR of the two flags; a type conflict degrades the
merged type to the string family (`strings` when the merged flag is set,
`string` otherwise); and the spec's scenario — a document with
`tags = [1, 2, 3]` then one with `tags = ["a"]` — yields
`tags : {strings, multiValued = true}` in either observation order. -/
theorem c3_merge_comm_idem (a b : FieldDefinition) :
    mergeFieldDef a b = mergeFieldDef b a ∧
    mergeFieldDef a a = a ∧
    (mergeFieldDef a b).multiValued = (a.multiValued || b.multiValued) ∧
    (a.type ≠ b.type →
      (mergeFieldDef a b).type =
        (if a.multiValued || b.multiValued then "strings" else "string")) ∧
    SolrEngine.gather_field_definitions
      [[("tags", .list [.int 1, .int 2, .int 3])], [("tags", .list [.str "a"])]] true =
      [("tags", { type := "strings", multiValued := true })] ∧
    SolrEngine.gather_field_definitions
      [[("tags", .list [.str "a"])], [("tags", .list [.int 1, .int 2, .int 3])]] true =
      [("tags", { type := "strings", multiValued := true })] := by
  refine ⟨?_, ?_, rfl, ?_, ?_, ?_⟩
  · by_cases h : a.type = b.type
    · simp [mergeFieldDef, h, Bool.or_comm]
    · have h' : ¬ b.type = a.type := fun hh => h hh.symm
      simp [mergeFieldDef, h, h', Bool.or_comm]
  · cases a with
    | mk ty mv => simp [mergeFieldDef]
  · intro h
    simp [mergeFieldDef, h]
  · simp [SolrEngine.gather_field_definitions, gatherDoc, gatherEntry, gatherItems,
          recordFieldDef, SolrEngine.infer_field_definition, isinstanceInt,
          isinstanceFloat, isinstanceBool, isinstanceDict, mergeFieldDef, assocUpdate,
          List.lookup]
  · simp [SolrEngine.gather_field_definitions, gatherDoc, gatherEntry, gatherItems,
          recordFieldDef, SolrEngine.infer_field_definition, isinstanceInt,
          isinstanceFloat, isinstanceBool, isinstanceDict, mergeFieldDef, assocUpdate,
          List.lookup]

/-- C4 (confirmed): a load run over zero requests (an empty outcome list)
returns, on every backend, the Metrics whose counts and whose average latency,
median latency and throughput are all 0. The embedding returns `some`/`ok` —
that is, none of the Python-partial operations raises: the empty-latency-set
mean/median and the throughput quotient are both guarded in the source. -/
theorem c4_zero_requests (t : ℚ) :
    OpenSearchEngine.run_search_test [] t =
      some { total_requests := 0, successful := 0, errors := 0, avg_latency := 0,
             median_latency := 0, throughput := 0 } ∧
    MeilisearchEngine.run_search_test [] t =
      Except.ok (some { total_requests := 0, successful := 0, errors := 0,
                        avg_latency := 0, median_latency := 0, throughput := 0 }) ∧
    SolrEngine.run_search_test [] t =
      Except.ok (some { total_requests := 0, successful := 0, errors := 0,
                        avg_latency := 0, median_latency := 0, throughput := 0 }) := by
  have h : aggregate [] 0 t =
      some { total_requests := 0, successful := 0, errors := 0, avg_latency := 0,
             median_latency := 0, throughput := 0 } := by
    have h0 := aggregate_eq [] 0 t 0 0 (by simp) (by simp)
    simpa using h0
  exact ⟨h, congrArg Except.ok h, congrArg Except.ok h⟩

/-- C5 (counterexample). Read over "every backend variant" the claim fails: a
Solr load run in which every request raises aborts with the exception instead
of returning a Metrics with `errors = num_requests`. Here both requests of a
two-request Solr run fail and the run returns the exception. -/
theorem c5_counterexample :
    SolrEngine.run_search_test [Except.error (), Except.error ()] 1 =
      Except.error () := rfl

/-- C5 (amended): for the OpenSearch load run, when every one of the `n`
operations fails the returned Metrics has `successful = 0`, `errors = n` and
zero average and median latency; a Meilisearch or Solr run of at least one
request in which every operation raises propagates the exception and returns
no Metrics. -/
theorem c5_amended (n : ℕ) (t : ℚ) :
    (∃ m, OpenSearchEngine.run_search_test (List.replicate n (Except.error ())) t
        = some m ∧ m.successful = 0 ∧ m.errors = n ∧
        m.avg_latency = 0 ∧ m.median_latency = 0) ∧
    MeilisearchEngine.run_search_test (List.replicate (n + 1) (Except.error ())) t =
      Except.error () ∧
    SolrEngine.run_search_test (List.replicate (n + 1) (Except.error ())) t =
      Except.error () := by
  refine ⟨?_, ?_, ?_⟩
  · have hmap : (List.replicate n (Except.error () : Except Unit ℚ)).map
        OpenSearchEngine.perform_search = List.replicate n Option.none := by
      simp [OpenSearchEngine.perform_search]
    have hrun : OpenSearchEngine.run_search_test (List.replicate n (Except.error ())) t
        = aggregate [] n t := by
      show aggregate (classify ((List.replicate n (Except.error ())).map
            OpenSearchEngine.perform_search)).1
          (classify ((List.replicate n (Except.error ())).map
            OpenSearchEngine.perform_search)).2 t = aggregate [] n t
      rw [hmap, classify_replicate_none]
    exact ⟨_, hrun.trans (aggregate_eq [] n t 0 0 (by simp) (by simp)),
      rfl, rfl, rfl, rfl⟩
  · unfold MeilisearchEngine.run_search_test
    rw [map_perform_search_meili, List.replicate_succ]
    rfl
  · unfold SolrEngine.run_search_test
    rw [map_perform_search_solr, List.replicate_succ]
    rfl

/-- C6 (counterexample). The sweep takes no externally supplied query list:
whatever the per-search behaviour, the returned query list is the hard-coded
six-query list, so the spec's scenario of running it over an external
two-query list x, y is impossible and each metric series holds six values,
not two. -/
theorem c6_counterexample :
    (MISPPerfTester.run_multiple_search_tests fun _ _ =>
      { total_requests := 0, successful := 0, errors := 0, avg_latency := 0,
        median_latency := 0, throughput := 0 }).1 =
      ["APT28", "Android", "phishing", "malware", "fraud",
       "e878d24d-f122-48c4-930c-f6b6d5f0ee28"] ∧
    (MISPPerfTester.run_multiple_search_tests fun _ _ =>
      { total_requests := 0, successful := 0, errors := 0, avg_latency := 0,
        median_latency := 0, throughput := 0 }).1 ≠ ["x", "y"] :=
  ⟨rfl, by decide⟩

/-- C6 (amended): for any per-(engine, query) search behaviour, the sweep
returns the fixed internal six-query list together with a matrix holding one
row per configured backend (OpenSearch, Meilisearch, Solr — in that order),
each row carrying exactly the four metric series avg_latency, median_latency,
throughput and errors, each series holding one value per query ordered to
match the internal query list (latencies converted to milliseconds). -/
theorem c6_amended (search : String → String → Metrics) :
    MISPPerfTester.run_multiple_search_tests search =
      (mispQueries,
       [("OpenSearch",
         { avg_latency := mispQueries.map fun q => (search "OpenSearch" q).avg_latency * 1000,
           median_latency := mispQueries.map fun q => (search "OpenSearch" q).median_latency * 1000,
           throughput := mispQueries.map fun q => (search "OpenSearch" q).throughput,
           errors := mispQueries.map fun q => (search "OpenSearch" q).errors }),
        ("Meilisearch",
         { avg_latency := mispQueries.map fun q => (search "Meilisearch" q).avg_latency * 1000,
           median_latency := mispQueries.map fun q => (search "Meilisearch" q).median_latency * 1000,
           throughput := mispQueries.map fun q => (search "Meilisearch" q).throughput,
           errors := mispQueries.map fun q => (search "Meilisearch" q).errors }),
        ("Solr",
         { avg_latency := mispQueries.map fun q => (search "Solr" q).avg_latency * 1000,
           median_latency := mispQueries.map fun q => (search "Solr" q).median_latency * 1000,
           throughput := mispQueries.map fun q => (search "Solr" q).throughput,
           errors := mispQueries.map fun q => (search "Solr" q).errors })]) := by
  simp [MISPPerfTester.run_multiple_search_tests, mispQueries, engineNames, appendMetrics]

/-- C7 (counterexample). Cleanup is not idempotent for the OpenSearch backend:
`cleanup` issues a bare index deletion with no `ignore` list and no
`try`/`except`, and the client raises `NotFoundError` when the index no longer
exists — exactly the already-clean case. -/
theorem c7_counterexample :
    OpenSearchEngine.cleanup false = Except.error () := rfl

/-- C7 (amended): the Meilisearch and Solr cleanups succeed in every state, in
particular on an already-clean backend, so they are idempotent; the OpenSearch
cleanup succeeds while the benchmark index still exists and raises on an
already-clean backend. -/
theorem c7_amended (already_clean : Bool) :
    MeilisearchEngine.cleanup already_clean = Except.ok () ∧
    SolrEngine.cleanup already_clean = Except.ok () ∧
    OpenSearchEngine.cleanup true = Except.ok () ∧
    OpenSearchEngine.cleanup false = Except.error () :=
  ⟨rfl, rfl, rfl, rfl⟩

/-- C8 (counterexample). The orchestrator's cleanup loop has no per-backend
fault isolation: with two backends of which the first's cleanup raises, the
loop propagates that exception and only one cleanup is ever attempted — the
second backend's cleanup is skipped. -/
theorem c8_counterexample :
    MISPPerfTester.cleanup [Except.error (), Except.ok ()] = Except.error () ∧
    cleanupAttempts [Except.error (), Except.ok ()] = 1 :=
  ⟨rfl, rfl⟩

/-- C8 (amended): `MISPPerfTester.cleanup` runs the backends in order and
stops at the first failure — after any all-ok prefix a raising cleanup
propagates, exactly the prefix plus the failing backend having been attempted
and the remaining backends never; when every cleanup succeeds the loop
completes. -/
theorem c8_amended (pre : List Unit) (e : Unit) (post : List (Except Unit Unit)) :
    MISPPerfTester.cleanup ((pre.map fun _ => Except.ok ()) ++ Except.error e :: post) =
      Except.error e ∧
    cleanupAttempts ((pre.map fun _ => Except.ok ()) ++ Except.error e :: post) =
      pre.length + 1 ∧
    MISPPerfTester.cleanup (pre.map fun _ => Except.ok ()) = Except.ok () :=
  ⟨misp_cleanup_prefix_error pre e post, cleanupAttempts_prefix_error pre e post,
   misp_cleanup_all_ok pre⟩

/-- C9 (confirmed): because the source checks `isinstance(value, int)` before
`isinstance(value, bool)` and Python's `bool` subclasses `int`, a scalar
boolean is classified `{pint, multiValued = false}` and a list headed by a
boolean `{pints, multiValued = true}`; the two boolean branches — `{boolean,
false}` for scalars and `{string, true}` for lists — are never taken: no input
whatsoever produces their results. -/
theorem c9_bool_hits_int_branch (b : Bool) (rest : List PyVal) :
    SolrEngine.infer_field_definition (.bool b) =
      { type := "pint", multiValued := false } ∧
    SolrEngine.infer_field_definition (.list (.bool b :: rest)) =
      { type := "pints", multiValued := true } ∧
    (∀ v : PyVal, SolrEngine.infer_field_definition v ≠
      { type := "boolean", multiValued := false }) ∧
    (∀ v : PyVal, SolrEngine.infer_field_definition v ≠
      { type := "string", multiValued := true }) :=
  ⟨rfl, rfl, fun v => (infer_never_boolean_branch v).1,
   fun v => (infer_never_boolean_branch v).2⟩

/-- C10 (counterexample). The clause "the cache records the passed field_type"
fails for the field named `revoked`: the source overwrites its type with
`booleans` before anything else, so a 200 response caches `booleans` and not
the passed `pint`. -/
theorem c10_counterexample :
    (SolrEngine.add_field "revoked" "pint" true true false 200).cached =
      some { type := "booleans", multiValued := false } ∧
    (SolrEngine.add_field "revoked" "pint" true true false 200).cached ≠
      some { type := "pint", multiValued := false } :=
  ⟨rfl, by decide⟩

/-- C10 (amended): every field-creation payload declares the remote field with
the fixed type `text_en` whatever `field_type` was passed; on a 200 response
the cache records the passed `field_type` except for the field named `revoked`,
whose recorded type is first overwritten to `booleans`; consequently whenever
the cached definition's type is not `text_en`, it differs from the type
actually declared on the backend. -/
theorem c10_amended (fn ft : String) (st ix mv : Bool) (sc : ℕ) :
    (SolrEngine.add_field fn ft st ix mv sc).payload.type = "text_en" ∧
    (sc = 200 → (SolrEngine.add_field fn ft st ix mv sc).cached =
      some { type := (if fn = "revoked" then "booleans" else ft),
             multiValued := mv }) ∧
    (∀ d, (SolrEngine.add_field fn ft st ix mv sc).cached = some d →
      d.type ≠ "text_en" →
      d.type ≠ (SolrEngine.add_field fn ft st ix mv sc).payload.type) := by
  refine ⟨rfl, ?_, ?_⟩
  · intro h
    simp [SolrEngine.add_field, h]
  · intro d hd hne
    exact fun hc => hne (hc.trans rfl)
